import Mathlib

/-!
DisplayHelperLib.

A shallow embedding of `src/Intel.FlexServices.DisplayHelperLib/DisplayHelperLib.cpp`
(`GetCurrentTopology`, `SetCurrentTopology`, `GetNumberofDisplays`) together with
the properties of its behaviour against a mocked operating system.

The operating system is a record of answer functions; every call the code issues is
appended to a call log, so that statements about which calls are (not) made can be
read off the log.
-/

namespace DisplayHelperLib

/-! ## Machine integers and Windows SDK constants

The constants are those of the Windows SDK headers the source includes; the headers are
not part of the repository. -/

/-- Reduction of a natural number to a 32-bit unsigned value (`DWORD`, `UINT`, `UINT32`). -/
def wrap32 (x : Nat) : Nat := x % 4294967296

/-- Windows SDK (`winerror.h`): the success result code of a `LONG`-returning call. -/
def ERROR_SUCCESS : Int := 0

/-- Windows SDK (`wingdi.h`): state flag of a device that is part of the desktop
(`DISPLAY_DEVICE_ATTACHED_TO_DESKTOP`, for monitors `DISPLAY_DEVICE_ACTIVE`). -/
def DISPLAY_DEVICE_ACTIVE : Nat := 0x00000001

/-- Windows SDK (`wingdi.h`): state flag of a mirroring pseudo device. -/
def DISPLAY_DEVICE_MIRRORING_DRIVER : Nat := 0x00000008

/-- Windows SDK (`wingdi.h`): flag of `EnumDisplayDevices`. -/
def EDD_GET_DEVICE_INTERFACE_NAME : Nat := 0x00000001

/-- Windows SDK (`wingdi.h`): the current-database flag of the display configuration queries. -/
def QDC_DATABASE_CURRENT : Nat := 0x00000004

/-- Windows SDK (`wingdi.h`): the apply flag of `SetDisplayConfig`. -/
def SDC_APPLY : Nat := 0x00000080

/-- Windows SDK (`wingdi.h`): `sizeof(DISPLAYCONFIG_PATH_INFO)`. -/
def sizeof_DISPLAYCONFIG_PATH_INFO : Nat := 72

/-- Windows SDK (`wingdi.h`): `sizeof(DISPLAYCONFIG_MODE_INFO)`. -/
def sizeof_DISPLAYCONFIG_MODE_INFO : Nat := 64

/-! ## `GetNumberofDisplays` (source lines 84-130) -/

/-- The fields of `DISPLAY_DEVICE` that `GetNumberofDisplays` reads. -/
structure DISPLAY_DEVICE where
  DeviceName : String
  StateFlags : Nat
  deriving DecidableEq, Repr

/-- A mocked device and mode enumeration. `EnumDisplayDevices iDevNum dwFlags` answers
`none` when the call returns `FALSE` and the filled structure otherwise;
`EnumDisplaySettings lpszDeviceName iModeNum` answers the `BOOL` of the call. -/
structure GdiMock where
  EnumDisplayDevices : Nat → Nat → Option DISPLAY_DEVICE
  EnumDisplaySettings : String → Nat → Bool

/-- One operating-system call issued by `GetNumberofDisplays`. -/
inductive GdiCall where
  | enumDisplayDevices (iDevNum dwFlags : Nat)
  | enumDisplaySettings (lpszDeviceName : String) (iModeNum : Nat)
  deriving DecidableEq, Repr

/-- The observable state of a run of `GetNumberofDisplays`: the value held by
`*NumDisplays` and the calls issued so far, oldest first. -/
structure Progress where
  NumDisplays : Nat
  calls : List GdiCall
  deriving DecidableEq, Repr

/-- Source lines 112-116: `while (retval && modecount <= 2) { modecount++; retval =
EnumDisplaySettings(AdapterName, modecount, ...); }`. Returns the final `retval` and the
extended call log. -/
def probeLoop (os : GdiMock) (AdapterName : String) (modecount : Nat) (retval : Bool)
    (calls : List GdiCall) : Bool × List GdiCall :=
  if retval = true ∧ modecount ≤ 2 then
    probeLoop os AdapterName (wrap32 (modecount + 1))
      (os.EnumDisplaySettings AdapterName (wrap32 (modecount + 1)))
      (calls ++ [GdiCall.enumDisplaySettings AdapterName (wrap32 (modecount + 1))])
  else
    (retval, calls)
termination_by 3 - modecount
decreasing_by
  simp_wf
  unfold wrap32
  omega

/-- Source lines 98-121: the body of the device loop up to the increment of `count`,
for the device structure `d` that the last `EnumDisplayDevices` call filled in. The
`DEVMODE` argument of `EnumDisplaySettings` carries the same two input fields
(`dmSize`, `dmDriverExtra`) at every call and its output is never read, so it is left out
of the mocked call. -/
def examineDevice (os : GdiMock) (d : DISPLAY_DEVICE) (st : Progress) : Progress :=
  if d.StateFlags ≠ DISPLAY_DEVICE_MIRRORING_DRIVER then
    let modecount := 0
    let AdapterName := d.DeviceName
    let retval := os.EnumDisplaySettings AdapterName modecount
    let r := probeLoop os AdapterName modecount retval
      (st.calls ++ [GdiCall.enumDisplaySettings AdapterName modecount])
    if r.1 = true then
      { NumDisplays := wrap32 (st.NumDisplays + 1), calls := r.2 }
    else
      { NumDisplays := st.NumDisplays, calls := r.2 }
  else
    st

/-- Source lines 96-127: the device loop `while (retval) { ... count++; retval =
EnumDisplayDevices(NULL, count, ..., 0); }`. `dev` is the answer of the last
`EnumDisplayDevices` call (`none` when `retval` is `FALSE`). One unit of fuel is spent
per iteration; `none` is returned when the fuel runs out. -/
def deviceLoop (os : GdiMock) :
    Nat → Nat → Option DISPLAY_DEVICE → Progress → Option Progress
  | _, _, none, st => some st
  | 0, _, some _, _ => none
  | fuel + 1, count, some d, st =>
    let st1 := examineDevice os d st
    let count1 := wrap32 (count + 1)
    deviceLoop os fuel count1 (os.EnumDisplayDevices count1 0)
      { NumDisplays := st1.NumDisplays,
        calls := st1.calls ++ [GdiCall.enumDisplayDevices count1 0] }

/-- Source lines 84-130. The result is the final state: the value written to
`*NumDisplays` and the log of the calls issued. -/
def GetNumberofDisplays (os : GdiMock) (fuel : Nat) : Option Progress :=
  let count := 0
  deviceLoop os fuel count (os.EnumDisplayDevices count EDD_GET_DEVICE_INTERFACE_NAME)
    { NumDisplays := 0,
      calls := [GdiCall.enumDisplayDevices count EDD_GET_DEVICE_INTERFACE_NAME] }

/-! ## `GetCurrentTopology` (source lines 13-63) and `SetCurrentTopology` (lines 69-76) -/

/-- Mocked display configuration services.
`GetDisplayConfigBufferSizes flags` answers the result code and the two element counts
(`UINT32`) it stores; `QueryDisplayConfig flags numPath pathBuffer numMode modeBuffer`
receives the two buffers with their contents and answers the result code and the
topology identifier it stores through the last argument (`none` when it stores nothing);
`SetDisplayConfig numPath pathArray numMode modeArray flags` answers the result code,
a `NULL` array being `none`. -/
structure ConfigMock where
  GetDisplayConfigBufferSizes : Nat → Int × Nat × Nat
  QueryDisplayConfig : Nat → Nat → List Nat → Nat → List Nat → Int × Option Nat
  SetDisplayConfig : Nat → Option (List Nat) → Nat → Option (List Nat) → Nat → Int

/-- A mocked C allocator: `succeeds k size` tells whether the `k`-th call of `malloc`
(counted from 0), asking for `size` bytes, returns a block; `garbage k i` is the byte found
at offset `i` of that block, which `malloc` does not initialise. -/
structure HeapMock where
  succeeds : Nat → Nat → Bool
  garbage : Nat → Nat → Nat

/-- One external call issued by `GetCurrentTopology`; a buffer argument of
`QueryDisplayConfig` is recorded with its contents at the moment of the call. -/
inductive Event where
  | getDisplayConfigBufferSizes (flags : Nat)
  | malloc (size : Nat) (result : Option Nat)
  | memset (ptr value len : Nat)
  | queryDisplayConfig (flags numPath : Nat) (pathBuffer : List Nat) (numMode : Nat)
      (modeBuffer : List Nat)
  | free (ptr : Nat)
  deriving DecidableEq, Repr

/-- The observable state of a run of `GetCurrentTopology`: the number of `malloc` calls made,
the blocks allocated and not yet freed (pointer and contents), the calls issued so far,
oldest first, and the caller's storage behind `peCurrentTopology` (`none` for a null
reference). -/
structure Machine where
  mallocs : Nat
  live : List (Nat × List Nat)
  events : List Event
  topology : Option Nat
  deriving DecidableEq, Repr

/-- C `malloc`: on success a fresh non-null pointer to `size` uninitialised bytes. -/
def malloc (heap : HeapMock) (m : Machine) (size : Nat) : Option Nat × Machine :=
  if heap.succeeds m.mallocs size = true then
    (some (m.mallocs + 1),
      { m with
        mallocs := m.mallocs + 1
        live := m.live ++ [(m.mallocs + 1, (List.range size).map (heap.garbage m.mallocs))]
        events := m.events ++ [Event.malloc size (some (m.mallocs + 1))] })
  else
    (none, { m with mallocs := m.mallocs + 1, events := m.events ++ [Event.malloc size none] })

/-- C `memset`: the first `len` bytes of the block at `ptr` become `value`. -/
def memset (m : Machine) (ptr value len : Nat) : Machine :=
  { m with
    live := m.live.map (fun b =>
      if b.1 = ptr then (b.1, List.replicate (min len b.2.length) value ++ b.2.drop len) else b)
    events := m.events ++ [Event.memset ptr value len] }

/-- C `free`: the block at `ptr` is released. -/
def free (m : Machine) (ptr : Nat) : Machine :=
  { m with
    live := m.live.filter (fun b => b.1 ≠ ptr)
    events := m.events ++ [Event.free ptr] }

/-- The contents of the live block at `ptr`. -/
def contents (m : Machine) (ptr : Nat) : List Nat :=
  match m.live.find? (fun b => b.1 = ptr) with
  | some b => b.2
  | none => []

/-- Source lines 13-63. `sizeBits` is the width of `size_t` on the target, in which the
byte counts `NumPathArrayElements * sizeof(DISPLAYCONFIG_PATH_INFO)` and
`NumModeInfoArrayElements * sizeof(DISPLAYCONFIG_MODE_INFO)` are computed;
`peCurrentTopology` is the value behind the output reference, `none` for `NULL`. The
result is the final state. -/
def GetCurrentTopology (os : ConfigMock) (heap : HeapMock) (sizeBits : Nat)
    (peCurrentTopology : Option Nat) : Machine :=
  let sizes := os.GetDisplayConfigBufferSizes QDC_DATABASE_CURRENT
  let result := sizes.1
  let NumPathArrayElements := sizes.2.1
  let NumModeInfoArrayElements := sizes.2.2
  let m0 : Machine :=
    { mallocs := 0, live := [],
      events := [Event.getDisplayConfigBufferSizes QDC_DATABASE_CURRENT],
      topology := peCurrentTopology }
  if result ≠ ERROR_SUCCESS then m0
  else
    match peCurrentTopology with
    | none => m0
    | some current =>
      let pathBytes := (NumPathArrayElements * sizeof_DISPLAYCONFIG_PATH_INFO) % 2 ^ sizeBits
      let modeBytes := (NumModeInfoArrayElements * sizeof_DISPLAYCONFIG_MODE_INFO) % 2 ^ sizeBits
      match malloc heap m0 pathBytes with
      | (none, m1) => m1
      | (some pPathInfoArray, m1) =>
        match malloc heap m1 modeBytes with
        | (none, m2) => free m2 pPathInfoArray
        | (some pModeInfoArray, m2) =>
          let m3 := memset m2 pPathInfoArray 0 pathBytes
          let m4 := memset m3 pModeInfoArray 0 modeBytes
          let answer := os.QueryDisplayConfig QDC_DATABASE_CURRENT
            NumPathArrayElements (contents m4 pPathInfoArray)
            NumModeInfoArrayElements (contents m4 pModeInfoArray)
          let m5 : Machine :=
            { m4 with
              events := m4.events ++ [Event.queryDisplayConfig QDC_DATABASE_CURRENT
                NumPathArrayElements (contents m4 pPathInfoArray)
                NumModeInfoArrayElements (contents m4 pModeInfoArray)]
              topology := some (answer.2.getD current) }
          let m6 := free m5 pPathInfoArray
          free m6 pModeInfoArray

/-- Source lines 69-76. `pDesiredTopology` is the value behind the input reference. -/
def SetCurrentTopology (os : ConfigMock) (pDesiredTopology : Nat) : Bool :=
  let result := os.SetDisplayConfig 0 none 0 none (wrap32 (SDC_APPLY ||| pDesiredTopology))
  if result ≠ ERROR_SUCCESS then false else true

/-! ## Reading the device enumeration the way the code does -/

/-- The flags the code passes to `EnumDisplayDevices` at device index `i`: the first call
(line 95) passes `EDD_GET_DEVICE_INTERFACE_NAME`, every later call (line 126) passes `0`. -/
def flagsAt (i : Nat) : Nat := if i = 0 then EDD_GET_DEVICE_INTERFACE_NAME else 0

/-- The answer of the mocked enumeration for device index `i`, as the code asks for it. -/
def deviceAt (os : GdiMock) (i : Nat) : Option DISPLAY_DEVICE :=
  os.EnumDisplayDevices i (flagsAt i)

/-- The first failing device index is `n`: the enumeration answers with a device at every
index below `n` and fails at `n`. -/
def FirstFailingIndex (os : GdiMock) (n : Nat) : Prop :=
  deviceAt os n = none ∧ ∀ i, i < n → (deviceAt os i).isSome = true

/-- The number of mode probes executed for an adapter name: probing stops at the first
failing probe and otherwise after the probe at index 3. -/
def probeCount (os : GdiMock) (name : String) : Nat :=
  if os.EnumDisplaySettings name 0 = false then 1
  else if os.EnumDisplaySettings name 1 = false then 2
  else if os.EnumDisplaySettings name 2 = false then 3
  else 4

/-- The mode probes executed for a device, in order; none for a device whose state flags
equal the mirroring-driver flag. -/
def probeCalls (os : GdiMock) (d : DISPLAY_DEVICE) : List GdiCall :=
  if d.StateFlags = DISPLAY_DEVICE_MIRRORING_DRIVER then []
  else (List.range (probeCount os d.DeviceName)).map (GdiCall.enumDisplaySettings d.DeviceName)

/-- The mode probes at indices 0, 1, 2 and 3 all succeed for the adapter name. -/
def fourModes (os : GdiMock) (name : String) : Bool :=
  os.EnumDisplaySettings name 0 && os.EnumDisplaySettings name 1 &&
    os.EnumDisplaySettings name 2 && os.EnumDisplaySettings name 3

/-- The device passes both filters: its state flags differ from the mirroring-driver flag
and the mode probes at indices 0 to 3 succeed. -/
def viable (os : GdiMock) (d : DISPLAY_DEVICE) : Bool :=
  decide (d.StateFlags ≠ DISPLAY_DEVICE_MIRRORING_DRIVER) && fourModes os d.DeviceName

/-- Whether the device at index `i` of the enumeration is viable. -/
def viableAt (os : GdiMock) (i : Nat) : Bool :=
  match deviceAt os i with
  | some d => viable os d
  | none => false

/-- The calls issued for the devices at indices below `k`: for each index the
`EnumDisplayDevices` call followed by the mode probes of the device found there. -/
def callsBefore (os : GdiMock) : Nat → List GdiCall
  | 0 => []
  | k + 1 =>
    callsBefore os k ++ GdiCall.enumDisplayDevices k (flagsAt k) ::
      (match deviceAt os k with
       | some d => probeCalls os d
       | none => [])

/-- The state of the run at the moment the loop condition is tested for index `k`. -/
def stateAt (os : GdiMock) (k : Nat) : Progress :=
  { NumDisplays := ((List.range k).filter (viableAt os)).length,
    calls := callsBefore os k ++ [GdiCall.enumDisplayDevices k (flagsAt k)] }

instance (os : GdiMock) (n : Nat) : Decidable (FirstFailingIndex os n) := by
  unfold FirstFailingIndex
  exact inferInstance



/-- Whether the last mode probe executed for the device succeeded: the answer of the mock
to the last call in the log of the loop body run on the device alone (`false` when no
probe is executed). -/
def lastProbeSucceeded (os : GdiMock) (d : DISPLAY_DEVICE) : Bool :=
  match (examineDevice os d { NumDisplays := 0, calls := [] }).calls.getLast? with
  | some (GdiCall.enumDisplaySettings nm j) => os.EnumDisplaySettings nm j
  | _ => false

/-- The device at index `i` has state flags different from the mirroring-driver flag and
its last executed mode probe succeeded. -/
def countedAt (os : GdiMock) (i : Nat) : Bool :=
  match deviceAt os i with
  | some d => decide (d.StateFlags ≠ DISPLAY_DEVICE_MIRRORING_DRIVER) && lastProbeSucceeded os d
  | none => false

/-- The mock in which the adapter called `name` answers its mode probes by `modes`; every
other answer is that of `os`. -/
def withModes (os : GdiMock) (name : String) (modes : Nat → Bool) : GdiMock where
  EnumDisplayDevices := os.EnumDisplayDevices
  EnumDisplaySettings := fun nm j => if nm = name then modes j else os.EnumDisplaySettings nm j

/-! ## Reading the log of `GetCurrentTopology` -/

/-- Replays a log against the set of live pointers: a `malloc` that succeeds adds its
pointer, which must be non-null and not live already; a `free` must be of a live pointer and
removes it; `memset` and `QueryDisplayConfig` leave the set as it is. The result is the final
set of live pointers, or `none` when one of the conditions is violated. -/
def replay : List Event → List Nat → Option (List Nat)
  | [], live => some live
  | Event.malloc _ (some p) :: rest, live =>
    if p = 0 ∨ p ∈ live then none else replay rest (live ++ [p])
  | Event.free p :: rest, live =>
    if p ∈ live then replay rest (live.erase p) else none
  | _ :: rest, live => replay rest live

/-- The pointers returned by the successful `malloc` calls of a log, in order. -/
def allocated (events : List Event) : List Nat :=
  events.filterMap (fun e =>
    match e with
    | Event.malloc _ (some p) => some p
    | _ => none)

/-- The pointers passed to `free` in a log, in order. -/
def freed (events : List Event) : List Nat :=
  events.filterMap (fun e =>
    match e with
    | Event.free p => some p
    | _ => none)

/-- The `QueryDisplayConfig` calls of a log. -/
def queries (events : List Event) : List Event :=
  events.filter (fun e =>
    match e with
    | Event.queryDisplayConfig _ _ _ _ _ => true
    | _ => false)

/-! ## Concrete mocks -/

/-- An enumeration of one device at index 0 with the given name and state flags, which
reports exactly `modeCount` display modes (the probes at indices below `modeCount`
succeed). -/
def singleDevice (name : String) (flags modeCount : Nat) : GdiMock where
  EnumDisplayDevices := fun i _ =>
    if i = 0 then some { DeviceName := name, StateFlags := flags } else none
  EnumDisplaySettings := fun nm j => decide (nm = name) && decide (j < modeCount)

/-- The enumeration of three devices: a mirroring driver (which reports five modes), a
device with zero modes, and an active device with five modes. -/
def threeDeviceMock : GdiMock where
  EnumDisplayDevices := fun i _ =>
    match i with
    | 0 => some { DeviceName := "DISPLAY1", StateFlags := DISPLAY_DEVICE_MIRRORING_DRIVER }
    | 1 => some { DeviceName := "DISPLAY2", StateFlags := DISPLAY_DEVICE_ACTIVE }
    | 2 => some { DeviceName := "DISPLAY3", StateFlags := DISPLAY_DEVICE_ACTIVE }
    | _ => none
  EnumDisplaySettings := fun nm j =>
    (decide (nm = "DISPLAY1") || decide (nm = "DISPLAY3")) && decide (j < 5)

/-- A mock whose calls all answer the result code `r`. -/
def constantResult (r : Int) : ConfigMock where
  GetDisplayConfigBufferSizes := fun _ => (r, 2, 3)
  QueryDisplayConfig := fun _ _ _ _ _ => (r, some 4)
  SetDisplayConfig := fun _ _ _ _ _ => r

/-- An allocator whose first `k` calls succeed and whose later calls fail; fresh blocks are
filled with the byte `0xCD`. -/
def failingAfter (k : Nat) : HeapMock where
  succeeds := fun i _ => decide (i < k)
  garbage := fun _ _ => 0xCD

/-! ## Auxiliary lemmas -/

theorem wrap32_of_lt {x : Nat} (h : x < 4294967296) : wrap32 x = x := by
  unfold wrap32; exact Nat.mod_eq_of_lt h

theorem probeLoop_zero (os : GdiMock) (nm : String) (tr : List GdiCall) :
    probeLoop os nm 0 (os.EnumDisplaySettings nm 0)
        (tr ++ [GdiCall.enumDisplaySettings nm 0]) =
      (fourModes os nm,
        tr ++ (List.range (probeCount os nm)).map (GdiCall.enumDisplaySettings nm)) := by
  have w1 : wrap32 (0 + 1) = 1 := by decide
  have w2 : wrap32 (1 + 1) = 2 := by decide
  have w3 : wrap32 (2 + 1) = 3 := by decide
  unfold probeCount fourModes
  rw [probeLoop]
  cases h0 : os.EnumDisplaySettings nm 0
  · simp [h0, List.range_succ]
  · rw [probeLoop, w1]
    cases h1 : os.EnumDisplaySettings nm 1
    · simp [h0, h1, List.range_succ]
    · rw [probeLoop, w2]
      cases h2 : os.EnumDisplaySettings nm 2
      · simp [h0, h1, h2, List.range_succ]
      · rw [probeLoop, w3]
        simp [h0, h1, h2, List.range_succ]

theorem examineDevice_eq (os : GdiMock) (d : DISPLAY_DEVICE) (st : Progress) :
    examineDevice os d st =
      { NumDisplays := if viable os d = true then wrap32 (st.NumDisplays + 1) else st.NumDisplays,
        calls := st.calls ++ probeCalls os d } := by
  unfold examineDevice viable probeCalls
  by_cases hm : d.StateFlags = DISPLAY_DEVICE_MIRRORING_DRIVER
  · simp [hm]
  · simp only [ne_eq, hm, not_false_eq_true, if_true, if_false, probeLoop_zero, decide_True,
      Bool.true_and]
    split <;> rfl

theorem filter_range_length_le (p : Nat → Bool) (k : Nat) :
    ((List.range k).filter p).length ≤ k := by
  calc ((List.range k).filter p).length ≤ (List.range k).length := List.length_filter_le _ _
    _ = k := List.length_range k

theorem stateAt_succ (os : GdiMock) (k : Nat) (d : DISPLAY_DEVICE) (hk : k + 1 < 4294967296)
    (hd : deviceAt os k = some d) :
    ({ NumDisplays := (examineDevice os d (stateAt os k)).NumDisplays,
       calls := (examineDevice os d (stateAt os k)).calls ++
         [GdiCall.enumDisplayDevices (k + 1) 0] } : Progress) = stateAt os (k + 1) := by
  have hle := filter_range_length_le (viableAt os) k
  have hv : viableAt os k = viable os d := by simp [viableAt, hd]
  rw [examineDevice_eq]
  simp only [stateAt, callsBefore, hd, List.range_succ, List.filter_append, List.length_append,
    flagsAt, Nat.succ_ne_zero, if_false, List.append_assoc, List.singleton_append,
    List.cons_append, List.filter_cons, List.filter_nil, hv]
  cases hvd : viable os d
  · simp
  · simp only [if_true, List.length_cons, List.length_nil]
    rw [wrap32_of_lt (by omega)]
    simp

theorem deviceLoop_run (os : GdiMock) (n : Nat) (hn : n < 4294967296)
    (hfirst : FirstFailingIndex os n) :
    ∀ (fuel k : Nat), k ≤ n → n - k ≤ fuel →
      deviceLoop os fuel k (deviceAt os k) (stateAt os k) = some (stateAt os n) := by
  intro fuel
  induction fuel with
  | zero =>
    intro k hk hf
    have : k = n := by omega
    subst this
    rw [hfirst.1]
    rfl
  | succ f ih =>
    intro k hk hf
    rcases Nat.lt_or_ge k n with hlt | hge
    · obtain ⟨d, hd⟩ := Option.isSome_iff_exists.mp (hfirst.2 k hlt)
      rw [hd]
      simp only [deviceLoop]
      rw [wrap32_of_lt (by omega : k + 1 < 4294967296)]
      have hnext : os.EnumDisplayDevices (k + 1) 0 = deviceAt os (k + 1) := by
        simp [deviceAt, flagsAt]
      rw [hnext, stateAt_succ os k d (by omega) hd]
      exact ih (k + 1) (by omega) (by omega)
    · have : k = n := by omega
      subst this
      rw [hfirst.1]
      rfl

theorem GetNumberofDisplays_run (os : GdiMock) (n fuel : Nat) (hn : n < 4294967296)
    (hfirst : FirstFailingIndex os n) (hfuel : n ≤ fuel) :
    GetNumberofDisplays os fuel = some (stateAt os n) := by
  have h := deviceLoop_run os n hn hfirst fuel 0 (Nat.zero_le n) (by omega)
  unfold GetNumberofDisplays
  simpa [deviceAt, flagsAt, stateAt, callsBefore] using h

theorem probeCount_pos (os : GdiMock) (nm : String) : 1 ≤ probeCount os nm := by
  unfold probeCount; split_ifs <;> omega

theorem probeCount_le (os : GdiMock) (nm : String) : probeCount os nm ≤ 4 := by
  unfold probeCount; split_ifs <;> omega

theorem probe_before_last (os : GdiMock) (nm : String) (j : Nat)
    (hj : j + 1 < probeCount os nm) : os.EnumDisplaySettings nm j = true := by
  unfold probeCount at hj
  split_ifs at hj with h0 h1 h2
  · omega
  · have : j = 0 := by omega
    subst this; simpa using h0
  · rcases (by omega : j = 0 ∨ j = 1) with rfl | rfl
    · simpa using h0
    · simpa using h1
  · rcases (by omega : j = 0 ∨ j = 1 ∨ j = 2) with rfl | rfl | rfl
    · simpa using h0
    · simpa using h1
    · simpa using h2

theorem probe_last_fails (os : GdiMock) (nm : String) (h : probeCount os nm < 4) :
    os.EnumDisplaySettings nm (probeCount os nm - 1) = false := by
  unfold probeCount at h ⊢
  split_ifs at h ⊢ with h0 h1 h2
  · simpa using h0
  · simpa using h1
  · simpa using h2
  · omega

theorem fourModes_eq_last (os : GdiMock) (nm : String) :
    os.EnumDisplaySettings nm (probeCount os nm - 1) = fourModes os nm := by
  unfold probeCount fourModes
  split_ifs with h0 h1 h2
  · simp [h0]
  · simp [h1]
  · simp [h2]
  · simp at h0 h1 h2; simp [h0, h1, h2]

theorem lastProbeSucceeded_eq (os : GdiMock) (d : DISPLAY_DEVICE) :
    lastProbeSucceeded os d = viable os d := by
  unfold lastProbeSucceeded viable
  rw [examineDevice_eq]
  by_cases hm : d.StateFlags = DISPLAY_DEVICE_MIRRORING_DRIVER
  · simp [probeCalls, hm]
  · obtain ⟨c, hc⟩ : ∃ c, probeCount os d.DeviceName = c + 1 :=
      ⟨probeCount os d.DeviceName - 1, by have := probeCount_pos os d.DeviceName; omega⟩
    have hl := fourModes_eq_last os d.DeviceName
    simp only [probeCalls, hm, if_false, List.nil_append, hc, List.range_succ, List.map_append,
      List.map_cons, List.map_nil, ne_eq, not_false_eq_true, decide_True, Bool.true_and]
    rw [← hl, hc]
    simp

theorem countedAt_eq (os : GdiMock) : countedAt os = viableAt os := by
  funext i
  unfold countedAt viableAt
  cases deviceAt os i with
  | none => rfl
  | some d => simp only [lastProbeSucceeded_eq, viable, Bool.and_self_left]

theorem mem_callsBefore_device (os : GdiMock) (i f : Nat) :
    ∀ k, GdiCall.enumDisplayDevices i f ∈ callsBefore os k → i < k := by
  intro k
  induction k with
  | zero => intro h; simp [callsBefore] at h
  | succ k ih =>
    intro h
    simp only [callsBefore, List.mem_append, List.mem_cons] at h
    rcases h with h | h | h
    · have := ih h; omega
    · injection h with h1 _; omega
    · cases hd : deviceAt os k with
      | none => simp [hd] at h
      | some d =>
        simp only [hd, probeCalls] at h
        split_ifs at h
        · simp at h
        · simp at h

theorem mem_callsBefore_probe (os : GdiMock) (nm : String) (j : Nat) :
    ∀ k, GdiCall.enumDisplaySettings nm j ∈ callsBefore os k →
      ∃ i d, i < k ∧ deviceAt os i = some d ∧ d.DeviceName = nm ∧
        d.StateFlags ≠ DISPLAY_DEVICE_MIRRORING_DRIVER ∧ j < probeCount os nm := by
  intro k
  induction k with
  | zero => intro h; simp [callsBefore] at h
  | succ k ih =>
    intro h
    simp only [callsBefore, List.mem_append, List.mem_cons] at h
    rcases h with h | h | h
    · obtain ⟨i, d, hi, rest⟩ := ih h
      exact ⟨i, d, by omega, rest⟩
    · cases h
    · cases hd : deviceAt os k with
      | none => simp [hd] at h
      | some d =>
        simp only [hd, probeCalls] at h
        split_ifs at h with hm
        · simp at h
        · simp only [List.mem_map, List.mem_range] at h
          obtain ⟨a, ha, heq⟩ := h
          injection heq with h1 h2
          subst h2
          exact ⟨k, d, by omega, hd, h1, hm, by rw [← h1]; exact ha⟩

theorem deviceAt_congr (os os2 : GdiMock)
    (hdev : os2.EnumDisplayDevices = os.EnumDisplayDevices) (i : Nat) :
    deviceAt os2 i = deviceAt os i := by
  simp [deviceAt, hdev]

theorem probes_congr (os os2 : GdiMock) (d : DISPLAY_DEVICE)
    (h : d.StateFlags ≠ DISPLAY_DEVICE_MIRRORING_DRIVER →
      ∀ j, os2.EnumDisplaySettings d.DeviceName j = os.EnumDisplaySettings d.DeviceName j) :
    viable os2 d = viable os d ∧ probeCalls os2 d = probeCalls os d := by
  by_cases hm : d.StateFlags = DISPLAY_DEVICE_MIRRORING_DRIVER
  · simp [viable, probeCalls, hm]
  · have hj := h hm
    simp [viable, probeCalls, hm, fourModes, probeCount, hj]

theorem stateAt_congr (os os2 : GdiMock)
    (hdev : os2.EnumDisplayDevices = os.EnumDisplayDevices) :
    ∀ k, (∀ i d, i < k → deviceAt os i = some d →
        d.StateFlags ≠ DISPLAY_DEVICE_MIRRORING_DRIVER →
        ∀ j, os2.EnumDisplaySettings d.DeviceName j = os.EnumDisplaySettings d.DeviceName j) →
      stateAt os2 k = stateAt os k := by
  intro k
  induction k with
  | zero => intro _; rfl
  | succ k ih =>
    intro h
    have hk := ih (fun i d hi => h i d (by omega))
    have hcalls : callsBefore os2 k = callsBefore os k := by
      have := congrArg Progress.calls hk
      simpa [stateAt] using this
    have hnum : ((List.range k).filter (viableAt os2)).length =
        ((List.range k).filter (viableAt os)).length := by
      have := congrArg Progress.NumDisplays hk
      simpa [stateAt] using this
    have hv : viableAt os2 k = viableAt os k ∧
        (match deviceAt os2 k with
          | some d => probeCalls os2 d
          | none => []) =
        (match deviceAt os k with
          | some d => probeCalls os d
          | none => []) := by
      unfold viableAt
      rw [deviceAt_congr os os2 hdev k]
      cases hd : deviceAt os k with
      | none => exact ⟨rfl, rfl⟩
      | some d => exact probes_congr os os2 d (h k d (by omega) hd)
    simp only [stateAt, callsBefore, List.range_succ, List.filter_append, List.length_append,
      hcalls, hnum, hv.1, hv.2, List.filter_cons, List.filter_nil]

theorem wrap32_succ_ne (x : Nat) : wrap32 (x + 1) ≠ x := by
  unfold wrap32; omega

theorem filter_range_one (p : Nat → Bool) :
    ((List.range 1).filter p).length = if p 0 = true then 1 else 0 := by
  have : List.range 1 = [0] := rfl
  rw [this]
  cases h : p 0 <;> simp [h]

theorem fourModes_iff (os : GdiMock) (nm : String) :
    fourModes os nm = true ↔
      (os.EnumDisplaySettings nm 0 = true ∧ os.EnumDisplaySettings nm 1 = true ∧
        os.EnumDisplaySettings nm 2 = true ∧ os.EnumDisplaySettings nm 3 = true) := by
  simp [fourModes, and_assoc]

theorem firstFailing_singleDevice (name : String) (flags modeCount : Nat) :
    FirstFailingIndex (singleDevice name flags modeCount) 1 := by
  refine ⟨by simp [deviceAt, singleDevice], ?_⟩
  intro i hi
  have : i = 0 := by omega
  subst this
  simp [deviceAt, singleDevice]

/-! ### The paths of `GetCurrentTopology` -/

theorem drop_fresh_block (g : Nat → Nat) (n : Nat) :
    List.drop n (List.map g (List.range n)) = [] := by
  apply List.drop_eq_nil_of_le
  simp

theorem GetCurrentTopology_early (os : ConfigMock) (heap : HeapMock) (sizeBits : Nat)
    (peCurrentTopology : Option Nat)
    (h : (os.GetDisplayConfigBufferSizes QDC_DATABASE_CURRENT).1 ≠ ERROR_SUCCESS ∨
      peCurrentTopology = none) :
    GetCurrentTopology os heap sizeBits peCurrentTopology =
      { mallocs := 0, live := [],
        events := [Event.getDisplayConfigBufferSizes QDC_DATABASE_CURRENT],
        topology := peCurrentTopology } := by
  unfold GetCurrentTopology
  rcases h with h | h
  · simp [h]
  · subst h
    by_cases hr : (os.GetDisplayConfigBufferSizes QDC_DATABASE_CURRENT).1 = ERROR_SUCCESS <;>
      simp [hr]

theorem GetCurrentTopology_first_fails (os : ConfigMock) (heap : HeapMock) (sizeBits : Nat)
    (current pathBytes : Nat)
    (hr : (os.GetDisplayConfigBufferSizes QDC_DATABASE_CURRENT).1 = ERROR_SUCCESS)
    (hp : pathBytes = ((os.GetDisplayConfigBufferSizes QDC_DATABASE_CURRENT).2.1 *
      sizeof_DISPLAYCONFIG_PATH_INFO) % 2 ^ sizeBits)
    (h1 : heap.succeeds 0 pathBytes = false) :
    GetCurrentTopology os heap sizeBits (some current) =
      { mallocs := 1, live := [],
        events := [Event.getDisplayConfigBufferSizes QDC_DATABASE_CURRENT,
          Event.malloc pathBytes none],
        topology := some current } := by
  subst hp
  unfold GetCurrentTopology
  simp [hr, malloc, h1]

theorem GetCurrentTopology_second_fails (os : ConfigMock) (heap : HeapMock) (sizeBits : Nat)
    (current pathBytes modeBytes : Nat)
    (hr : (os.GetDisplayConfigBufferSizes QDC_DATABASE_CURRENT).1 = ERROR_SUCCESS)
    (hp : pathBytes = ((os.GetDisplayConfigBufferSizes QDC_DATABASE_CURRENT).2.1 *
      sizeof_DISPLAYCONFIG_PATH_INFO) % 2 ^ sizeBits)
    (hm : modeBytes = ((os.GetDisplayConfigBufferSizes QDC_DATABASE_CURRENT).2.2 *
      sizeof_DISPLAYCONFIG_MODE_INFO) % 2 ^ sizeBits)
    (h1 : heap.succeeds 0 pathBytes = true) (h2 : heap.succeeds 1 modeBytes = false) :
    GetCurrentTopology os heap sizeBits (some current) =
      { mallocs := 2, live := [],
        events := [Event.getDisplayConfigBufferSizes QDC_DATABASE_CURRENT,
          Event.malloc pathBytes (some 1), Event.malloc modeBytes none, Event.free 1],
        topology := some current } := by
  subst hp hm
  unfold GetCurrentTopology
  simp [hr, malloc, h1, h2, free]

theorem GetCurrentTopology_full_path (os : ConfigMock) (heap : HeapMock) (sizeBits : Nat)
    (current pathBytes modeBytes : Nat)
    (hr : (os.GetDisplayConfigBufferSizes QDC_DATABASE_CURRENT).1 = ERROR_SUCCESS)
    (hp : pathBytes = ((os.GetDisplayConfigBufferSizes QDC_DATABASE_CURRENT).2.1 *
      sizeof_DISPLAYCONFIG_PATH_INFO) % 2 ^ sizeBits)
    (hm : modeBytes = ((os.GetDisplayConfigBufferSizes QDC_DATABASE_CURRENT).2.2 *
      sizeof_DISPLAYCONFIG_MODE_INFO) % 2 ^ sizeBits)
    (h1 : heap.succeeds 0 pathBytes = true) (h2 : heap.succeeds 1 modeBytes = true) :
    GetCurrentTopology os heap sizeBits (some current) =
      { mallocs := 2, live := [],
        events := [Event.getDisplayConfigBufferSizes QDC_DATABASE_CURRENT,
          Event.malloc pathBytes (some 1), Event.malloc modeBytes (some 2),
          Event.memset 1 0 pathBytes, Event.memset 2 0 modeBytes,
          Event.queryDisplayConfig QDC_DATABASE_CURRENT
            (os.GetDisplayConfigBufferSizes QDC_DATABASE_CURRENT).2.1
            (List.replicate pathBytes 0)
            (os.GetDisplayConfigBufferSizes QDC_DATABASE_CURRENT).2.2
            (List.replicate modeBytes 0),
          Event.free 1, Event.free 2],
        topology := some (((os.QueryDisplayConfig QDC_DATABASE_CURRENT
            (os.GetDisplayConfigBufferSizes QDC_DATABASE_CURRENT).2.1
            (List.replicate pathBytes 0)
            (os.GetDisplayConfigBufferSizes QDC_DATABASE_CURRENT).2.2
            (List.replicate modeBytes 0)).2).getD current) } := by
  subst hp hm
  unfold GetCurrentTopology
  simp [hr, malloc, h1, h2, free, memset, contents, drop_fresh_block]

/-! ## The claims on `GetNumberofDisplays` -/

/-- C3. For every enumeration whose first failing device index is `n`, the run returns
(given fuel for `n` iterations) and writes exactly the number of devices at indices below
`n` whose state flags differ from the mirroring-driver flag and whose last executed mode
probe succeeded; no device index above `n` is ever asked for and every mode probe is for
a device below `n`. In particular the count is 0 when `n = 0`, and 1 for the
three-device enumeration. -/
theorem GetNumberofDisplays_counts_devices :
    (∀ (os : GdiMock) (n fuel : Nat), n < 4294967296 → FirstFailingIndex os n → n ≤ fuel →
      ∃ st, GetNumberofDisplays os fuel = some st ∧
        st.NumDisplays = ((List.range n).filter (countedAt os)).length ∧
        (∀ i f, GdiCall.enumDisplayDevices i f ∈ st.calls → i ≤ n) ∧
        (∀ nm j, GdiCall.enumDisplaySettings nm j ∈ st.calls →
          ∃ i d, i < n ∧ deviceAt os i = some d ∧ d.DeviceName = nm)) ∧
    (∀ (os : GdiMock) (fuel : Nat), FirstFailingIndex os 0 →
      (GetNumberofDisplays os fuel).map Progress.NumDisplays = some 0) ∧
    (∀ fuel : Nat, 3 ≤ fuel →
      (GetNumberofDisplays threeDeviceMock fuel).map Progress.NumDisplays = some 1) := by
  refine ⟨?_, ?_, ?_⟩
  · intro os n fuel hn hfirst hfuel
    refine ⟨stateAt os n, GetNumberofDisplays_run os n fuel hn hfirst hfuel, ?_, ?_, ?_⟩
    · rw [countedAt_eq]; rfl
    · intro i f h
      simp only [stateAt, List.mem_append, List.mem_singleton] at h
      rcases h with h | h
      · exact Nat.le_of_lt (mem_callsBefore_device os i f n h)
      · injection h with h1 _; omega
    · intro nm j h
      simp only [stateAt, List.mem_append, List.mem_singleton] at h
      rcases h with h | h
      · obtain ⟨i, d, hi, hd, hnm, _⟩ := mem_callsBefore_probe os nm j n h
        exact ⟨i, d, hi, hd, hnm⟩
      · cases h
  · intro os fuel hfirst
    rw [GetNumberofDisplays_run os 0 fuel (by decide) hfirst (Nat.zero_le _)]
    rfl
  · intro fuel hfuel
    rw [GetNumberofDisplays_run threeDeviceMock 3 fuel (by decide) (by decide) hfuel]
    decide

/-- Witness for C3: the general statement applied to the three-device enumeration. -/
theorem GetNumberofDisplays_counts_devices_witness :
    (3 : Nat) < 4294967296 ∧ FirstFailingIndex threeDeviceMock 3 ∧
    ∃ st, GetNumberofDisplays threeDeviceMock 3 = some st ∧
      st.NumDisplays = ((List.range 3).filter (countedAt threeDeviceMock)).length ∧
      (∀ i f, GdiCall.enumDisplayDevices i f ∈ st.calls → i ≤ 3) ∧
      (∀ nm j, GdiCall.enumDisplaySettings nm j ∈ st.calls →
        ∃ i d, i < 3 ∧ deviceAt threeDeviceMock i = some d ∧ d.DeviceName = nm) :=
  ⟨by decide, by decide,
    GetNumberofDisplays_counts_devices.1 threeDeviceMock 3 3 (by decide) (by decide)
      (Nat.le_refl 3)⟩

/-- C4. A device whose state flags equal the mirroring-driver flag contributes nothing,
however many display modes it reports. (1) Whatever the mode answers, the loop body leaves
the count and the call log as they are for such a device. (2) Two enumerations with the
same devices whose mode answers agree for every non-mirroring device below the first
failing index give the same result. (3) When no other non-mirroring device carries the
name of the mirroring one (modes are asked for by device name), the result is the same as
for the enumeration in which that device reports no modes at all, and the same whatever
modes it reports. -/
theorem mirroring_device_contributes_nothing (os : GdiMock) (n fuel k : Nat)
    (d : DISPLAY_DEVICE) (hn : n < 4294967296) (hfirst : FirstFailingIndex os n)
    (hfuel : n ≤ fuel) (hk : k < n) (hd : deviceAt os k = some d)
    (hmirror : d.StateFlags = DISPLAY_DEVICE_MIRRORING_DRIVER) :
    (∀ (os2 : GdiMock) (st : Progress), examineDevice os2 d st = st) ∧
    (∀ os2 : GdiMock, os2.EnumDisplayDevices = os.EnumDisplayDevices →
      (∀ i e, i < n → deviceAt os i = some e →
        e.StateFlags ≠ DISPLAY_DEVICE_MIRRORING_DRIVER →
        ∀ j, os2.EnumDisplaySettings e.DeviceName j = os.EnumDisplaySettings e.DeviceName j) →
      ∃ st, GetNumberofDisplays os fuel = some st ∧ GetNumberofDisplays os2 fuel = some st) ∧
    ((∀ i e, i < n → i ≠ k → deviceAt os i = some e →
        e.StateFlags ≠ DISPLAY_DEVICE_MIRRORING_DRIVER → e.DeviceName ≠ d.DeviceName) →
      ∃ st, GetNumberofDisplays os fuel = some st ∧
        GetNumberofDisplays (withModes os d.DeviceName (fun _ => false)) fuel = some st ∧
        ∀ modes : Nat → Bool,
          GetNumberofDisplays (withModes os d.DeviceName modes) fuel = some st) := by
  have agree : ∀ os2 : GdiMock, os2.EnumDisplayDevices = os.EnumDisplayDevices →
      (∀ i e, i < n → deviceAt os i = some e →
        e.StateFlags ≠ DISPLAY_DEVICE_MIRRORING_DRIVER →
        ∀ j, os2.EnumDisplaySettings e.DeviceName j = os.EnumDisplaySettings e.DeviceName j) →
      GetNumberofDisplays os2 fuel = some (stateAt os n) := by
    intro os2 hdev hmodes
    have hfirst2 : FirstFailingIndex os2 n := by
      unfold FirstFailingIndex
      simp only [deviceAt_congr os os2 hdev]
      exact hfirst
    rw [GetNumberofDisplays_run os2 n fuel hn hfirst2 hfuel]
    congr 1
    exact stateAt_congr os os2 hdev n hmodes
  have hrun := GetNumberofDisplays_run os n fuel hn hfirst hfuel
  refine ⟨?_, ?_, ?_⟩
  · intro os2 st
    simp [examineDevice, hmirror]
  · intro os2 hdev hmodes
    exact ⟨stateAt os n, hrun, agree os2 hdev hmodes⟩
  · intro hname
    have key : ∀ modes : Nat → Bool,
        GetNumberofDisplays (withModes os d.DeviceName modes) fuel = some (stateAt os n) := by
      intro modes
      apply agree (withModes os d.DeviceName modes) rfl
      intro i e hi he hne j
      have hik : i ≠ k := by
        intro h
        subst h
        rw [hd] at he
        injection he with he
        subst he
        exact hne hmirror
      simp [withModes, hname i e hi hik he hne]
    exact ⟨stateAt os n, hrun, key _, key⟩

/-- Witness for C4: the mirroring driver at index 0 of the three-device enumeration, which
reports five modes. -/
theorem mirroring_device_contributes_nothing_witness :
    FirstFailingIndex threeDeviceMock 3 ∧
    deviceAt threeDeviceMock 0 =
      some { DeviceName := "DISPLAY1", StateFlags := DISPLAY_DEVICE_MIRRORING_DRIVER } ∧
    threeDeviceMock.EnumDisplaySettings "DISPLAY1" 4 = true ∧
    ∃ st, GetNumberofDisplays threeDeviceMock 3 = some st ∧
      GetNumberofDisplays (withModes threeDeviceMock "DISPLAY1" (fun _ => false)) 3 = some st ∧
      ∀ modes : Nat → Bool,
        GetNumberofDisplays (withModes threeDeviceMock "DISPLAY1" modes) 3 = some st :=
  ⟨by decide, by decide, by decide,
    (mirroring_device_contributes_nothing threeDeviceMock 3 3 0
      { DeviceName := "DISPLAY1", StateFlags := DISPLAY_DEVICE_MIRRORING_DRIVER }
      (by decide) (by decide) (Nat.le_refl 3) (by decide) (by decide) rfl).2.2
      (by
        intro i e hi hik he _
        rcases (by omega : i = 1 ∨ i = 2) with rfl | rfl
        · simp only [deviceAt, threeDeviceMock, Option.some.injEq] at he
          subst he
          decide
        · simp only [deviceAt, threeDeviceMock, Option.some.injEq] at he
          subst he
          decide)⟩

/-- C5, counterexample. The single device of the enumeration does not have the active
state flag, reports four display modes, and is counted. -/
theorem inactive_device_is_counted :
    FirstFailingIndex (singleDevice "DISPLAY1" 0 4) 1 ∧
    deviceAt (singleDevice "DISPLAY1" 0 4) 0 =
      some { DeviceName := "DISPLAY1", StateFlags := 0 } ∧
    (0 : Nat) &&& DISPLAY_DEVICE_ACTIVE = 0 ∧
    (GetNumberofDisplays (singleDevice "DISPLAY1" 0 4) 1).map Progress.NumDisplays = some 1 := by
  refine ⟨by decide, by decide, by decide, ?_⟩
  simp [GetNumberofDisplays, deviceLoop, examineDevice, probeLoop, singleDevice, wrap32,
    DISPLAY_DEVICE_MIRRORING_DRIVER, EDD_GET_DEVICE_INTERFACE_NAME]

/-- C5, amended. The written count is exactly the number of devices below the first
failing index whose state flags differ from the mirroring-driver flag and whose mode
probes at indices 0 to 3 all succeed. The active flag is not consulted: two devices of
the same name whose state flags both differ from the mirroring-driver flag are counted
alike, whatever their other flags. -/
theorem count_ignores_active_flag (os : GdiMock) (n fuel : Nat) (hn : n < 4294967296)
    (hfirst : FirstFailingIndex os n) (hfuel : n ≤ fuel) :
    (∃ st, GetNumberofDisplays os fuel = some st ∧
      st.NumDisplays = ((List.range n).filter (viableAt os)).length) ∧
    (∀ d e : DISPLAY_DEVICE, d.DeviceName = e.DeviceName →
      d.StateFlags ≠ DISPLAY_DEVICE_MIRRORING_DRIVER →
      e.StateFlags ≠ DISPLAY_DEVICE_MIRRORING_DRIVER →
      ∀ st, (examineDevice os d st).NumDisplays = (examineDevice os e st).NumDisplays) := by
  refine ⟨⟨stateAt os n, GetNumberofDisplays_run os n fuel hn hfirst hfuel, rfl⟩, ?_⟩
  intro d e hname hd he st
  simp [examineDevice_eq, viable, hd, he, hname]

/-- Witness for C5 (amended): the enumeration of one inactive device with four modes. -/
theorem count_ignores_active_flag_witness :
    FirstFailingIndex (singleDevice "DISPLAY1" 0 4) 1 ∧
    ((∃ st, GetNumberofDisplays (singleDevice "DISPLAY1" 0 4) 1 = some st ∧
      st.NumDisplays =
        ((List.range 1).filter (viableAt (singleDevice "DISPLAY1" 0 4))).length) ∧
    (∀ d e : DISPLAY_DEVICE, d.DeviceName = e.DeviceName →
      d.StateFlags ≠ DISPLAY_DEVICE_MIRRORING_DRIVER →
      e.StateFlags ≠ DISPLAY_DEVICE_MIRRORING_DRIVER →
      ∀ st, (examineDevice (singleDevice "DISPLAY1" 0 4) d st).NumDisplays =
        (examineDevice (singleDevice "DISPLAY1" 0 4) e st).NumDisplays)) :=
  ⟨by decide,
    count_ignores_active_flag (singleDevice "DISPLAY1" 0 4) 1 1 (by decide) (by decide)
      (Nat.le_refl 1)⟩

/-- C7, counterexample. For one active device with five modes the code issues four mode
probes, the last of them at index 3. -/
theorem probe_issued_at_index_three :
    GetNumberofDisplays (singleDevice "DISPLAY1" DISPLAY_DEVICE_ACTIVE 5) 1 =
      some { NumDisplays := 1,
             calls := [GdiCall.enumDisplayDevices 0 EDD_GET_DEVICE_INTERFACE_NAME,
                       GdiCall.enumDisplaySettings "DISPLAY1" 0,
                       GdiCall.enumDisplaySettings "DISPLAY1" 1,
                       GdiCall.enumDisplaySettings "DISPLAY1" 2,
                       GdiCall.enumDisplaySettings "DISPLAY1" 3,
                       GdiCall.enumDisplayDevices 1 0] } := by
  simp [GetNumberofDisplays, deviceLoop, examineDevice, probeLoop, singleDevice, wrap32,
    DISPLAY_DEVICE_MIRRORING_DRIVER, DISPLAY_DEVICE_ACTIVE, EDD_GET_DEVICE_INTERFACE_NAME]

/-- C7, amended. The calls of a run are, for each device index below the first failing
one, the device query followed by the mode probes of the device found there, and then the
failing device query. For a device whose state flags differ from the mirroring-driver
flag the probes are at indices 0, 1, 2, 3 in that order: at least one and at most four,
every probe but the last succeeded, and fewer than four are issued only when the last one
failed. No probe is issued at index 4 or above. -/
theorem probes_stop_at_index_three (os : GdiMock) (n fuel : Nat) (hn : n < 4294967296)
    (hfirst : FirstFailingIndex os n) (hfuel : n ≤ fuel) :
    ∃ st, GetNumberofDisplays os fuel = some st ∧
      st.calls = callsBefore os n ++ [GdiCall.enumDisplayDevices n (flagsAt n)] ∧
      (∀ nm j, GdiCall.enumDisplaySettings nm j ∈ st.calls → j ≤ 3) ∧
      (∀ d : DISPLAY_DEVICE, d.StateFlags ≠ DISPLAY_DEVICE_MIRRORING_DRIVER →
        probeCalls os d = (List.range (probeCount os d.DeviceName)).map
          (GdiCall.enumDisplaySettings d.DeviceName) ∧
        1 ≤ probeCount os d.DeviceName ∧ probeCount os d.DeviceName ≤ 4 ∧
        (∀ j, j + 1 < probeCount os d.DeviceName →
          os.EnumDisplaySettings d.DeviceName j = true) ∧
        (probeCount os d.DeviceName < 4 →
          os.EnumDisplaySettings d.DeviceName (probeCount os d.DeviceName - 1) = false)) := by
  refine ⟨stateAt os n, GetNumberofDisplays_run os n fuel hn hfirst hfuel, rfl, ?_, ?_⟩
  · intro nm j h
    simp only [stateAt, List.mem_append, List.mem_singleton] at h
    rcases h with h | h
    · obtain ⟨i, d, _, _, _, _, hj⟩ := mem_callsBefore_probe os nm j n h
      have := probeCount_le os nm
      omega
    · cases h
  · intro d hd
    exact ⟨by simp [probeCalls, hd], probeCount_pos os _, probeCount_le os _,
      probe_before_last os _, probe_last_fails os _⟩

/-- Witness for C7 (amended): one active device with five modes. -/
theorem probes_stop_at_index_three_witness :
    FirstFailingIndex (singleDevice "DISPLAY1" DISPLAY_DEVICE_ACTIVE 5) 1 ∧
    ∃ st, GetNumberofDisplays (singleDevice "DISPLAY1" DISPLAY_DEVICE_ACTIVE 5) 1 = some st ∧
      st.calls = callsBefore (singleDevice "DISPLAY1" DISPLAY_DEVICE_ACTIVE 5) 1 ++
        [GdiCall.enumDisplayDevices 1 (flagsAt 1)] ∧
      (∀ nm j, GdiCall.enumDisplaySettings nm j ∈ st.calls → j ≤ 3) ∧
      (∀ d : DISPLAY_DEVICE, d.StateFlags ≠ DISPLAY_DEVICE_MIRRORING_DRIVER →
        probeCalls (singleDevice "DISPLAY1" DISPLAY_DEVICE_ACTIVE 5) d =
          (List.range (probeCount (singleDevice "DISPLAY1" DISPLAY_DEVICE_ACTIVE 5)
            d.DeviceName)).map (GdiCall.enumDisplaySettings d.DeviceName) ∧
        1 ≤ probeCount (singleDevice "DISPLAY1" DISPLAY_DEVICE_ACTIVE 5) d.DeviceName ∧
        probeCount (singleDevice "DISPLAY1" DISPLAY_DEVICE_ACTIVE 5) d.DeviceName ≤ 4 ∧
        (∀ j, j + 1 < probeCount (singleDevice "DISPLAY1" DISPLAY_DEVICE_ACTIVE 5) d.DeviceName →
          (singleDevice "DISPLAY1" DISPLAY_DEVICE_ACTIVE 5).EnumDisplaySettings d.DeviceName j
            = true) ∧
        (probeCount (singleDevice "DISPLAY1" DISPLAY_DEVICE_ACTIVE 5) d.DeviceName < 4 →
          (singleDevice "DISPLAY1" DISPLAY_DEVICE_ACTIVE 5).EnumDisplaySettings d.DeviceName
            (probeCount (singleDevice "DISPLAY1" DISPLAY_DEVICE_ACTIVE 5) d.DeviceName - 1)
            = false)) :=
  ⟨by decide,
    probes_stop_at_index_three (singleDevice "DISPLAY1" DISPLAY_DEVICE_ACTIVE 5) 1 1
      (by decide) (by decide) (Nat.le_refl 1)⟩

/-- C9. A device whose state flags differ from the mirroring-driver flag is counted (the
loop body increments `*NumDisplays`) if and only if the mode probes at indices 0, 1, 2
and 3 all succeed, and is otherwise left out; so for a device that reports exactly `m`
modes it is counted if and only if `4 ≤ m` (not for three modes, but for four or more).
For the enumeration of that single device the count written is 1 or 0 accordingly. -/
theorem counted_iff_four_probes_succeed (os : GdiMock) (d : DISPLAY_DEVICE) (st : Progress)
    (hd : d.StateFlags ≠ DISPLAY_DEVICE_MIRRORING_DRIVER) :
    ((examineDevice os d st).NumDisplays = wrap32 (st.NumDisplays + 1) ↔
      (os.EnumDisplaySettings d.DeviceName 0 = true ∧
        os.EnumDisplaySettings d.DeviceName 1 = true ∧
        os.EnumDisplaySettings d.DeviceName 2 = true ∧
        os.EnumDisplaySettings d.DeviceName 3 = true)) ∧
    ((examineDevice os d st).NumDisplays = st.NumDisplays ↔
      ¬ (os.EnumDisplaySettings d.DeviceName 0 = true ∧
        os.EnumDisplaySettings d.DeviceName 1 = true ∧
        os.EnumDisplaySettings d.DeviceName 2 = true ∧
        os.EnumDisplaySettings d.DeviceName 3 = true)) ∧
    (∀ m : Nat, (∀ j, os.EnumDisplaySettings d.DeviceName j = decide (j < m)) →
      ((examineDevice os d st).NumDisplays = wrap32 (st.NumDisplays + 1) ↔ 4 ≤ m)) ∧
    (∀ fuel : Nat, 1 ≤ fuel → deviceAt os 0 = some d → deviceAt os 1 = none →
      (GetNumberofDisplays os fuel).map Progress.NumDisplays =
        some (if os.EnumDisplaySettings d.DeviceName 0 = true ∧
                os.EnumDisplaySettings d.DeviceName 1 = true ∧
                os.EnumDisplaySettings d.DeviceName 2 = true ∧
                os.EnumDisplaySettings d.DeviceName 3 = true then 1 else 0)) := by
  have hne := wrap32_succ_ne st.NumDisplays
  have hv : viable os d = fourModes os d.DeviceName := by simp [viable, hd]
  have h1 : ((examineDevice os d st).NumDisplays = wrap32 (st.NumDisplays + 1) ↔
      fourModes os d.DeviceName = true) := by
    rw [examineDevice_eq, hv]
    cases fourModes os d.DeviceName
    · simpa using fun h => hne h.symm
    · simp
  have h2 : ((examineDevice os d st).NumDisplays = st.NumDisplays ↔
      ¬ fourModes os d.DeviceName = true) := by
    rw [examineDevice_eq, hv]
    cases fourModes os d.DeviceName
    · simp
    · simpa using hne
  refine ⟨?_, ?_, ?_, ?_⟩
  · rw [h1, fourModes_iff]
  · rw [h2, fourModes_iff]
  · intro m hm
    rw [h1, fourModes_iff]
    simp only [hm, decide_eq_true_eq]
    omega
  · intro fuel hfuel h0 hnone
    have hfirst : FirstFailingIndex os 1 := by
      refine ⟨hnone, ?_⟩
      intro i hi
      have : i = 0 := by omega
      subst this
      simp [h0]
    rw [GetNumberofDisplays_run os 1 fuel (by decide) hfirst hfuel]
    have hv0 : viableAt os 0 = fourModes os d.DeviceName := by simp [viableAt, h0, hv]
    simp only [stateAt, Option.map_some', filter_range_one, hv0, ← fourModes_iff]

/-- Witness for C9: an active device is left out when it reports exactly three modes and
is counted when it reports four. -/
theorem counted_iff_four_probes_succeed_witness :
    DISPLAY_DEVICE_ACTIVE ≠ DISPLAY_DEVICE_MIRRORING_DRIVER ∧
    (examineDevice (singleDevice "DISPLAY1" DISPLAY_DEVICE_ACTIVE 3)
        { DeviceName := "DISPLAY1", StateFlags := DISPLAY_DEVICE_ACTIVE }
        { NumDisplays := 0, calls := [] }).NumDisplays = 0 ∧
    (examineDevice (singleDevice "DISPLAY1" DISPLAY_DEVICE_ACTIVE 4)
        { DeviceName := "DISPLAY1", StateFlags := DISPLAY_DEVICE_ACTIVE }
        { NumDisplays := 0, calls := [] }).NumDisplays = wrap32 (0 + 1) :=
  ⟨by decide,
    ((counted_iff_four_probes_succeed (singleDevice "DISPLAY1" DISPLAY_DEVICE_ACTIVE 3)
      { DeviceName := "DISPLAY1", StateFlags := DISPLAY_DEVICE_ACTIVE }
      { NumDisplays := 0, calls := [] } (by decide)).2.1).mpr (by decide),
    ((counted_iff_four_probes_succeed (singleDevice "DISPLAY1" DISPLAY_DEVICE_ACTIVE 4)
      { DeviceName := "DISPLAY1", StateFlags := DISPLAY_DEVICE_ACTIVE }
      { NumDisplays := 0, calls := [] } (by decide)).1).mpr (by decide)⟩

/-- C10. The mirroring filter compares the whole state-flags word: a single device with
at least four modes is left out only when its state flags equal the mirroring-driver flag
exactly. In particular the device whose state flags are the mirroring-driver bit together
with the active bit is counted. -/
theorem mirroring_filter_is_exact_equality (name : String) (flags modeCount fuel : Nat)
    (hmodes : 4 ≤ modeCount) (hfuel : 1 ≤ fuel) :
    (GetNumberofDisplays (singleDevice name flags modeCount) fuel).map Progress.NumDisplays =
      some (if flags = DISPLAY_DEVICE_MIRRORING_DRIVER then 0 else 1) ∧
    (DISPLAY_DEVICE_MIRRORING_DRIVER ||| DISPLAY_DEVICE_ACTIVE) &&&
      DISPLAY_DEVICE_MIRRORING_DRIVER = DISPLAY_DEVICE_MIRRORING_DRIVER ∧
    (GetNumberofDisplays
      (singleDevice name (DISPLAY_DEVICE_MIRRORING_DRIVER ||| DISPLAY_DEVICE_ACTIVE) modeCount)
      fuel).map Progress.NumDisplays = some 1 := by
  have h : ∀ f : Nat,
      (GetNumberofDisplays (singleDevice name f modeCount) fuel).map Progress.NumDisplays =
        some (if f = DISPLAY_DEVICE_MIRRORING_DRIVER then 0 else 1) := by
    intro f
    rw [GetNumberofDisplays_run _ 1 fuel (by decide) (firstFailing_singleDevice name f modeCount)
      hfuel]
    have h0 : 0 < modeCount := by omega
    have h1 : 1 < modeCount := by omega
    have h2 : 2 < modeCount := by omega
    have h3 : 3 < modeCount := by omega
    simp only [stateAt, Option.map_some', filter_range_one]
    by_cases hf : f = DISPLAY_DEVICE_MIRRORING_DRIVER
    · simp [viableAt, deviceAt, singleDevice, viable, hf]
    · simp [viableAt, deviceAt, singleDevice, viable, hf, fourModes, h0, h1, h2, h3]
  refine ⟨h flags, by decide, ?_⟩
  rw [h]
  decide

/-- Witness for C10: state flags 9 (mirroring-driver bit and active bit), four modes. -/
theorem mirroring_filter_is_exact_equality_witness :
    (GetNumberofDisplays (singleDevice "DISPLAY1" 9 4) 1).map Progress.NumDisplays = some 1 :=
  (mirroring_filter_is_exact_equality "DISPLAY1" 9 4 1 (by decide) (by decide)).1

/-! ## The claims on `SetCurrentTopology` and `GetCurrentTopology` -/

/-- C1. For every requested topology and every result code `r` that the apply call returns,
`SetCurrentTopology` returns `true` if and only if `r` is the success code, and `false` for
every other result code. -/
theorem SetCurrentTopology_true_iff_success (os : ConfigMock) (topology : Nat) (r : Int)
    (hr : os.SetDisplayConfig 0 none 0 none (wrap32 (SDC_APPLY ||| topology)) = r) :
    (SetCurrentTopology os topology = true ↔ r = ERROR_SUCCESS) ∧
    (SetCurrentTopology os topology = false ↔ r ≠ ERROR_SUCCESS) := by
  unfold SetCurrentTopology
  rw [hr]
  by_cases h : r = ERROR_SUCCESS <;> simp [h]

/-- Witness for C1: the apply call answers 5 (access denied) for the topology 4. -/
theorem SetCurrentTopology_true_iff_success_witness :
    (constantResult 5).SetDisplayConfig 0 none 0 none (wrap32 (SDC_APPLY ||| 4)) = 5 ∧
    ((SetCurrentTopology (constantResult 5) 4 = true ↔ (5 : Int) = ERROR_SUCCESS) ∧
     (SetCurrentTopology (constantResult 5) 4 = false ↔ (5 : Int) ≠ ERROR_SUCCESS)) :=
  ⟨rfl, SetCurrentTopology_true_iff_success (constantResult 5) 4 5 rfl⟩

/-- C2. When the size query fails, or the output reference is null, `GetCurrentTopology`
issues the size query and nothing else: no `malloc`, no `QueryDisplayConfig`, and the
caller's output value is what it was. -/
theorem GetCurrentTopology_silent_no_op (os : ConfigMock) (heap : HeapMock) (sizeBits : Nat)
    (peCurrentTopology : Option Nat)
    (h : (os.GetDisplayConfigBufferSizes QDC_DATABASE_CURRENT).1 ≠ ERROR_SUCCESS ∨
      peCurrentTopology = none) :
    (GetCurrentTopology os heap sizeBits peCurrentTopology).mallocs = 0 ∧
    allocated (GetCurrentTopology os heap sizeBits peCurrentTopology).events = [] ∧
    queries (GetCurrentTopology os heap sizeBits peCurrentTopology).events = [] ∧
    (GetCurrentTopology os heap sizeBits peCurrentTopology).topology = peCurrentTopology ∧
    (GetCurrentTopology os heap sizeBits peCurrentTopology).events =
      [Event.getDisplayConfigBufferSizes QDC_DATABASE_CURRENT] := by
  rw [GetCurrentTopology_early os heap sizeBits peCurrentTopology h]
  simp [allocated, queries]

/-- Witness for C2: the size query answers 87 (invalid parameter). -/
theorem GetCurrentTopology_silent_no_op_witness :
    (GetCurrentTopology (constantResult 87) (failingAfter 2) 64 (some 1)).mallocs = 0 ∧
    allocated (GetCurrentTopology (constantResult 87) (failingAfter 2) 64 (some 1)).events = [] ∧
    queries (GetCurrentTopology (constantResult 87) (failingAfter 2) 64 (some 1)).events = [] ∧
    (GetCurrentTopology (constantResult 87) (failingAfter 2) 64 (some 1)).topology = some 1 ∧
    (GetCurrentTopology (constantResult 87) (failingAfter 2) 64 (some 1)).events =
      [Event.getDisplayConfigBufferSizes QDC_DATABASE_CURRENT] :=
  GetCurrentTopology_silent_no_op (constantResult 87) (failingAfter 2) 64 (some 1)
    (Or.inl (by decide))

/-- C6. On every path of `GetCurrentTopology` the log replays without error from the empty
set of live pointers and ends with the empty set: every `free` is of a pointer that a
`malloc` of the run returned and that has not been freed since, and every block allocated
is freed. The pointers freed are exactly the pointers allocated, each once, and no block
is live when the function returns. When the first allocation succeeds and the second
fails, the only call after the failed `malloc` is the `free` of the first block. -/
theorem GetCurrentTopology_frees_what_it_allocates (os : ConfigMock) (heap : HeapMock)
    (sizeBits : Nat) (peCurrentTopology : Option Nat) :
    replay (GetCurrentTopology os heap sizeBits peCurrentTopology).events [] = some [] ∧
    freed (GetCurrentTopology os heap sizeBits peCurrentTopology).events =
      allocated (GetCurrentTopology os heap sizeBits peCurrentTopology).events ∧
    (allocated (GetCurrentTopology os heap sizeBits peCurrentTopology).events).Nodup ∧
    (GetCurrentTopology os heap sizeBits peCurrentTopology).live = [] ∧
    (∀ (s1 s2 p : Nat) (rest : List Event),
      (GetCurrentTopology os heap sizeBits peCurrentTopology).events =
        [Event.getDisplayConfigBufferSizes QDC_DATABASE_CURRENT,
          Event.malloc s1 (some p), Event.malloc s2 none] ++ rest →
      rest = [Event.free p]) := by
  by_cases hr : (os.GetDisplayConfigBufferSizes QDC_DATABASE_CURRENT).1 = ERROR_SUCCESS
  · cases peCurrentTopology with
    | none =>
      rw [GetCurrentTopology_early os heap sizeBits none (Or.inr rfl)]
      simp [replay, freed, allocated]
    | some current =>
      cases h1 : heap.succeeds 0
          (((os.GetDisplayConfigBufferSizes QDC_DATABASE_CURRENT).2.1 *
            sizeof_DISPLAYCONFIG_PATH_INFO) % 2 ^ sizeBits)
      · rw [GetCurrentTopology_first_fails os heap sizeBits current _ hr rfl h1]
        simp [replay, freed, allocated]
      · cases h2 : heap.succeeds 1
            (((os.GetDisplayConfigBufferSizes QDC_DATABASE_CURRENT).2.2 *
              sizeof_DISPLAYCONFIG_MODE_INFO) % 2 ^ sizeBits)
        · rw [GetCurrentTopology_second_fails os heap sizeBits current _ _ hr rfl rfl h1 h2]
          simp only [replay, freed, allocated]
          refine ⟨by decide, by simp, by simp, by simp, ?_⟩
          intro s1 s2 p rest h
          simp only [List.cons_append, List.nil_append, List.cons.injEq, Event.malloc.injEq,
            Option.some.injEq, true_and, and_true] at h
          obtain ⟨⟨_, hp⟩, _, hrest⟩ := h
          rw [← hrest, ← hp]
        · rw [GetCurrentTopology_full_path os heap sizeBits current _ _ hr rfl rfl h1 h2]
          simp only [replay, freed, allocated]
          refine ⟨by decide, by simp, by simp, by simp, ?_⟩
          intro s1 s2 p rest h
          simp at h
  · rw [GetCurrentTopology_early os heap sizeBits peCurrentTopology (Or.inl hr)]
    simp [replay, freed, allocated]

/-- Witness for C6: the second allocation fails, and the block of the first is freed. -/
theorem GetCurrentTopology_frees_what_it_allocates_witness :
    (GetCurrentTopology (constantResult 0) (failingAfter 1) 64 (some 1)).events =
      [Event.getDisplayConfigBufferSizes QDC_DATABASE_CURRENT,
        Event.malloc 144 (some 1), Event.malloc 192 none] ++ [Event.free 1] ∧
    replay (GetCurrentTopology (constantResult 0) (failingAfter 1) 64 (some 1)).events [] =
      some [] ∧
    [Event.free 1] = [Event.free 1] :=
  ⟨by decide,
    (GetCurrentTopology_frees_what_it_allocates (constantResult 0) (failingAfter 1) 64
      (some 1)).1,
    (GetCurrentTopology_frees_what_it_allocates (constantResult 0) (failingAfter 1) 64
      (some 1)).2.2.2.2 144 192 1 [Event.free 1] (by decide)⟩

end DisplayHelperLib
